import Mathlib

/-!
Shallow embedding of `django_dolt/services.py` (the Repository Operations
Façade of django-dolt).

The façade issues SQL statements through a database cursor and interprets
the rows or driver exceptions.  We model

* a statement as its text together with its bound parameter list;
* the driver's reaction to a statement as an `Except String α` value
  (`.error msg` is a raised driver exception carrying the text `msg`);
* each façade function as a pure Lean function from its arguments and the
  driver's reaction to a pair `(result, trace)` where `trace` is the list
  of statements the function issued;
* the engine's evaluation of the read-only catalog queries
  (`dolt_status`, `dolt_ignore`, `dolt_log`) over an explicit engine state.

An exception that a façade function does not catch propagates as the
distinguished `OpError.driverError` constructor; the typed errors of the
source (`DoltError`, `DoltCommitError`, `DoltPushError`, `DoltPullError`)
are the remaining constructors.
-/

/-- A SQL statement: its text and its bound parameters (rendered as strings). -/
structure Stmt where
  text : String
  params : List String
  deriving Repr, DecidableEq

/-- The error outcomes of a façade call.  The first four constructors are the
typed exception classes declared in `services.py`; `driverError` stands for a
raw driver exception that escaped the function uncaught. -/
inductive OpError where
  | doltError (msg : String)
  | doltCommitError (msg : String)
  | doltPushError (msg : String)
  | doltPullError (msg : String)
  | driverError (msg : String)
  deriving Repr, DecidableEq

deriving instance DecidableEq for Except

/-- `pat` is a character-for-character prefix of `s`. -/
def isPrefixChars : List Char → List Char → Bool
  | [], _ => true
  | _ :: _, [] => false
  | p :: ps, c :: cs => p == c && isPrefixChars ps cs

/-- `pat` occurs as a contiguous run somewhere in `s`. -/
def containsChars (pat : List Char) : List Char → Bool
  | [] => pat.isEmpty
  | c :: cs => isPrefixChars pat (c :: cs) || containsChars pat cs

/-- Python `pat in s`: substring containment. -/
def hasSubstr (s pat : String) : Bool :=
  containsChars pat.toList s.toList

/-- Python `s.lower()`: character-wise lower-casing. -/
def strToLower (s : String) : String :=
  String.mk (s.toList.map Char.toLower)

/-- SQL `LIKE` matching on character lists: `%` matches any sequence,
`_` matches one character, any other pattern character matches itself. -/
def likeMatchChars : List Char → List Char → Bool
  | [], s => s.isEmpty
  | '%' :: ps, s => s.tails.any fun t => likeMatchChars ps t
  | '_' :: _, [] => false
  | '_' :: ps, _ :: cs => likeMatchChars ps cs
  | _ :: _, [] => false
  | p :: ps, c :: cs => p == c && likeMatchChars ps cs

/-- SQL `s LIKE pattern`. -/
def likeMatch (pattern s : String) : Bool :=
  likeMatchChars pattern.toList s.toList

/-- One row of the engine's `dolt_status` view. -/
structure StatusRow where
  table_name : String
  staged : Nat
  status : String
  deriving Repr, DecidableEq

/-- One row of the engine's `dolt_ignore` table. -/
structure IgnoreRow where
  pattern : String
  ignored : Nat
  deriving Repr, DecidableEq

/-- One row of the engine's `dolt_log` view. -/
structure CommitRow where
  commit_hash : String
  committer : String
  email : String
  date : Int
  message : String
  deriving Repr, DecidableEq

/-- The engine-side catalogs consulted by the read-only operations.
`commits` lists the rows of the `dolt_log` view in the engine's native
return order. -/
structure EngineState where
  statusRows : List StatusRow
  ignoreRows : List IgnoreRow
  commits : List CommitRow
  branches : List String
  deriving Repr

/- Statement builders, one per `cursor.execute` site in `services.py`. -/

/-- `CALL DOLT_ADD(%s)` with the table bound. -/
def addStmt (table : String) : Stmt :=
  ⟨"CALL DOLT_ADD(%s)", [table]⟩

/-- `CALL DOLT_COMMIT(...)`; the text has a fixed extra `--allow-empty`
literal when the flag is set, message and author are bound parameters. -/
def commitStmt (message author : String) (allowEmpty : Bool) : Stmt :=
  if allowEmpty then
    ⟨"CALL DOLT_COMMIT(\x27-m\x27, %s, \x27--author\x27, %s, \x27--allow-empty\x27)",
     [message, author]⟩
  else
    ⟨"CALL DOLT_COMMIT(\x27-m\x27, %s, \x27--author\x27, %s)", [message, author]⟩

/-- The two fixed texts of the status query: the anti-join against
`dolt_ignore` when filtering is requested, the bare select otherwise. -/
def statusStmt (excludeIgnored : Bool) : Stmt :=
  if excludeIgnored then
    ⟨"SELECT s.* FROM dolt_status s WHERE NOT EXISTS (SELECT 1 FROM dolt_ignore i WHERE i.ignored = 1 AND s.table_name LIKE i.pattern)",
     []⟩
  else
    ⟨"SELECT * FROM dolt_status", []⟩

/-- `SELECT ... FROM dolt_log LIMIT %s` with the limit bound. -/
def logStmt (limit : Nat) : Stmt :=
  ⟨"SELECT commit_hash, committer, email, date, message FROM dolt_log LIMIT %s",
   [toString limit]⟩

/-- The diff statement.  With a (truthy, i.e. non-empty) table name the source
interpolates `from_ref`, `to_ref` and `table` directly into the text with an
f-string; otherwise both refs are bound parameters of a fixed summary query. -/
def diffStmt (fromRef toRef : String) (table : Option String) : Stmt :=
  match table with
  | some t =>
    if t.isEmpty then
      ⟨"SELECT * FROM dolt_diff_summary(%s, %s)", [fromRef, toRef]⟩
    else
      ⟨s!"SELECT * FROM dolt_diff(\x27{fromRef}\x27, \x27{toRef}\x27, \x27{t}\x27)", []⟩
  | none => ⟨"SELECT * FROM dolt_diff_summary(%s, %s)", [fromRef, toRef]⟩

/-- `SELECT name FROM dolt_branches`. -/
def branchesStmt : Stmt := ⟨"SELECT name FROM dolt_branches", []⟩

/-- `SELECT active_branch()`. -/
def currentBranchStmt : Stmt := ⟨"SELECT active_branch()", []⟩

/-- `SELECT pattern FROM dolt_ignore WHERE ignored = 1`. -/
def ignoreStmt : Stmt := ⟨"SELECT pattern FROM dolt_ignore WHERE ignored = 1", []⟩

/-- `SELECT * FROM dolt_remotes`. -/
def remotesStmt : Stmt := ⟨"SELECT * FROM dolt_remotes", []⟩

/-- `CALL DOLT_REMOTE('add', %s, %s)` with name and url bound. -/
def remoteAddStmt (name url : String) : Stmt :=
  ⟨"CALL DOLT_REMOTE(\x27add\x27, %s, %s)", [name, url]⟩

/-- The variadic argument list of `DOLT_PUSH`, built exactly as the source
does: optional `--user u`, then optional `--force`, then remote and branch.
`user` here is already resolved (argument or environment fallback); the
source's `if user:` is the non-emptiness test. -/
def pushArgs (remote branch : String) (force : Bool) (user : String) : List String :=
  let args : List String := []
  let args := if user != "" then args ++ ["--user", user] else args
  let args := if force then args ++ ["--force"] else args
  args ++ [remote, branch]

/-- `", "`-joined `%s` placeholders, one per argument. -/
def placeholders (n : Nat) : String :=
  String.intercalate ", " (List.replicate n "%s")

/-- `CALL DOLT_PUSH(<placeholders>)`: the text depends only on the number of
arguments, the values are all bound. -/
def pushStmt (remote branch : String) (force : Bool) (user : String) : Stmt :=
  let args := pushArgs remote branch force user
  let ph := placeholders args.length
  ⟨s!"CALL DOLT_PUSH({ph})", args⟩

/-- `CALL DOLT_PULL(%s, %s)` with remote and branch bound. -/
def pullStmt (remote branch : String) : Stmt :=
  ⟨"CALL DOLT_PULL(%s, %s)", [remote, branch]⟩

/-- `CALL DOLT_FETCH(%s)` with the remote bound. -/
def fetchStmt (remote : String) : Stmt :=
  ⟨"CALL DOLT_FETCH(%s)", [remote]⟩

/- The façade operations. -/

/-- `dolt_add`: issues the stage call; any driver exception is wrapped into
the base typed error (`DoltError`) with the target table in the message. -/
def dolt_add (table : String) (resp : Except String Unit) :
    Except OpError Unit × List Stmt :=
  (match resp with
   | .ok _ => .ok ()
   | .error e => .error (.doltError s!"Failed to stage \x27{table}\x27: {e}"),
   [addStmt table])

/-- `dolt_commit`: issues the commit call; on success returns the hash from
the fetched row (`None` when no row, or an empty row, came back); a driver
exception whose lower-cased text contains `"nothing to commit"` is the no-op
result, any other becomes `DoltCommitError`. -/
def dolt_commit (message author : String) (allowEmpty : Bool)
    (resp : Except String (Option (List String))) :
    Except OpError (Option String) × List Stmt :=
  (match resp with
   | .ok (some (x :: _)) => .ok (some x)
   | .ok _ => .ok none
   | .error e =>
     if hasSubstr (strToLower e) "nothing to commit" then .ok none
     else .error (.doltCommitError s!"Failed to commit: {e}"),
   [commitStmt message author allowEmpty])

/-- `dolt_add_and_commit`: stage, then commit with the default
`allow_empty = False`; a staging failure propagates before any commit
statement is built or issued. -/
def dolt_add_and_commit (message table author : String)
    (addResp : Except String Unit)
    (commitResp : Except String (Option (List String))) :
    Except OpError (Option String) × List Stmt :=
  let a := dolt_add table addResp
  match a.1 with
  | .error e => (.error e, a.2)
  | .ok _ =>
    let c := dolt_commit message author false commitResp
    (c.1, a.2 ++ c.2)

/-- The engine's evaluation of the status query: all rows, or — with the
anti-join — only the rows whose `table_name` `LIKE`-matches no pattern of an
active (`ignored = 1`) `dolt_ignore` row. -/
def statusQuery (db : EngineState) (excludeIgnored : Bool) : List StatusRow :=
  if excludeIgnored then
    db.statusRows.filter fun s =>
      !(db.ignoreRows.any fun i => i.ignored == 1 && likeMatch i.pattern s.table_name)
  else
    db.statusRows

/-- `dolt_status`: issues one of the two fixed status queries.  There is no
`try` in the source, so a driver exception escapes uncaught. -/
def dolt_status (excludeIgnored : Bool) (resp : Except String EngineState) :
    Except OpError (List StatusRow) × List Stmt :=
  (match resp with
   | .ok db => .ok (statusQuery db excludeIgnored)
   | .error e => .error (.driverError e),
   [statusStmt excludeIgnored])

/-- The engine's evaluation of `dolt_log ... LIMIT n`: the first `n` rows in
the view's native order. -/
def logQuery (db : EngineState) (limit : Nat) : List CommitRow :=
  db.commits.take limit

/-- `dolt_log`: issues the limited log query; no `try` in the source, a
driver exception escapes uncaught. -/
def dolt_log (limit : Nat) (resp : Except String EngineState) :
    Except OpError (List CommitRow) × List Stmt :=
  (match resp with
   | .ok db => .ok (logQuery db limit)
   | .error e => .error (.driverError e),
   [logStmt limit])

/-- `dolt_diff`: row-level diff (interpolated text) when a non-empty table is
named, else the parameterized summary diff; rows pass through unchanged; no
`try` in the source, a driver exception escapes uncaught. -/
def dolt_diff (fromRef toRef : String) (table : Option String)
    (resp : Except String (List (List String))) :
    Except OpError (List (List String)) × List Stmt :=
  (match resp with
   | .ok rows => .ok rows
   | .error e => .error (.driverError e),
   [diffStmt fromRef toRef table])

/-- `dolt_branch_list`: returns the branch names; no `try` in the source. -/
def dolt_branch_list (resp : Except String (List String)) :
    Except OpError (List String) × List Stmt :=
  (match resp with
   | .ok names => .ok names
   | .error e => .error (.driverError e),
   [branchesStmt])

/-- `dolt_current_branch`: one-row query; returns the first column of the
fetched row, the literal `"main"` when no (non-empty) row came back; no
`try` in the source, a driver exception escapes uncaught. -/
def dolt_current_branch (resp : Except String (Option (List String))) :
    Except OpError String × List Stmt :=
  (match resp with
   | .ok (some (x :: _)) => .ok x
   | .ok _ => .ok "main"
   | .error e => .error (.driverError e),
   [currentBranchStmt])

/-- The engine's evaluation of the ignore query: patterns of rows with
`ignored = 1`. -/
def ignoredQuery (db : EngineState) : List String :=
  (db.ignoreRows.filter fun i => i.ignored == 1).map fun i => i.pattern

/-- `get_ignored_tables`: issues the ignore query; no `try` in the source. -/
def get_ignored_tables (resp : Except String EngineState) :
    Except OpError (List String) × List Stmt :=
  (match resp with
   | .ok db => .ok (ignoredQuery db)
   | .error e => .error (.driverError e),
   [ignoreStmt])

/-- `dolt_remotes`: returns the remote rows; no `try` in the source. -/
def dolt_remotes (resp : Except String (List (List String))) :
    Except OpError (List (List String)) × List Stmt :=
  (match resp with
   | .ok rows => .ok rows
   | .error e => .error (.driverError e),
   [remotesStmt])

/-- `dolt_add_remote`: wraps any driver exception into the base typed error
with the remote name in the message. -/
def dolt_add_remote (name url : String) (resp : Except String Unit) :
    Except OpError Unit × List Stmt :=
  (match resp with
   | .ok _ => .ok ()
   | .error e => .error (.doltError s!"Failed to add remote \x27{name}\x27: {e}"),
   [remoteAddStmt name url])

/-- `dolt_push`: resolves the user from the argument or the
`DOLT_REMOTE_USER` environment value, issues the single variadic push call,
returns a success message; a driver exception becomes `DoltPushError`, with
remediation guidance appended when the text mentions
`DOLT_REMOTE_PASSWORD`. -/
def dolt_push (remote branch : String) (force : Bool)
    (user : Option String) (envUser : String) (resp : Except String Unit) :
    Except OpError String × List Stmt :=
  let u := user.getD envUser
  (match resp with
   | .ok _ => .ok s!"Pushed {branch} to {remote}"
   | .error e =>
     if hasSubstr e "DOLT_REMOTE_PASSWORD" then
       .error (.doltPushError (s!"Push failed: {e}" ++ "\n" ++
         "Note: DOLT_PUSH requires the DOLT_REMOTE_PASSWORD environment " ++
         "variable to be set at the Dolt server level."))
     else .error (.doltPushError s!"Push failed: {e}"),
   [pushStmt remote branch force u])

/-- Interpretation of the row fetched after `CALL DOLT_PULL`: the row is
`(fast_forward, conflicts, ...)`, modelled as the first column plus the list
of remaining columns; `conflicts` is the second column when present, `0`
otherwise; a nonzero (truthy) conflict count wins over the fast-forward
flag. -/
def interpretPullRow : Option (Int × List Int) → String
  | none => "Pull completed"
  | some (fastForward, rest) =>
    let conflicts := rest.headD 0
    if conflicts != 0 then s!"Pulled with {conflicts} conflicts"
    else if fastForward != 0 then "Fast-forward pull successful"
    else "Already up to date"

/-- The `try`-guarded body of `dolt_pull`: issue the pull call with the
resolved branch and interpret the result row; a driver exception becomes
`DoltPullError`. -/
def doltPullBody (remote branch : String)
    (pullResp : Except String (Option (Int × List Int))) :
    Except OpError String × List Stmt :=
  (match pullResp with
   | .ok row => .ok (interpretPullRow row)
   | .error e => .error (.doltPullError s!"Pull failed: {e}"),
   [pullStmt remote branch])

/-- `dolt_pull`: when `branch` is omitted it is resolved by an extra
`dolt_current_branch` round-trip — outside the `try`, so an exception there
escapes uncaught; then the guarded body runs. -/
def dolt_pull (remote : String) (branch : Option String)
    (branchResp : Except String (Option (List String)))
    (pullResp : Except String (Option (Int × List Int))) :
    Except OpError String × List Stmt :=
  match branch with
  | some b => doltPullBody remote b pullResp
  | none =>
    let cb := dolt_current_branch branchResp
    match cb.1 with
    | .error e => (.error e, cb.2)
    | .ok b =>
      let p := doltPullBody remote b pullResp
      (p.1, cb.2 ++ p.2)

/-- `dolt_fetch`: issues the fetch call; a driver exception is wrapped into
the base typed error. -/
def dolt_fetch (remote : String) (resp : Except String Unit) :
    Except OpError String × List Stmt :=
  (match resp with
   | .ok _ => .ok s!"Fetched from {remote}"
   | .error e => .error (.doltError s!"Fetch failed: {e}"),
   [fetchStmt remote])

/- Demo engine states used by witnesses. -/

/-- A catalog with one ordinary table and one table covered by an active
ignore pattern. -/
def dbIgnoreDemo : EngineState :=
  { statusRows := [⟨"users", 0, "modified"⟩, ⟨"tmp_cache", 0, "new table"⟩]
    ignoreRows := [⟨"tmp%", 1⟩]
    commits := []
    branches := [] }

/-- A catalog whose log view holds two commits in newest-first order. -/
def dbLogDemo : EngineState :=
  { statusRows := [], ignoreRows := []
    commits := [⟨"h2", "c", "e", 2, "second"⟩, ⟨"h1", "c", "e", 1, "first"⟩]
    branches := [] }

/-- C1: for every message, author and allow-empty flag, `dolt_commit` turns a
driver exception whose lower-cased text contains "nothing to commit" into the
no-op result `none` without raising, and wraps every other driver exception
into the typed `DoltCommitError`. -/
theorem dolt_commit_nothing_to_commit_classification
    (message author : String) (allowEmpty : Bool) (e : String) :
    (hasSubstr (strToLower e) "nothing to commit" = true →
      (dolt_commit message author allowEmpty (.error e)).1 = .ok none)
    ∧ (hasSubstr (strToLower e) "nothing to commit" = false →
      (dolt_commit message author allowEmpty (.error e)).1 =
        .error (.doltCommitError s!"Failed to commit: {e}")) := by
  constructor <;> intro h <;> simp [dolt_commit, h]

/-- Witness for C1: a mixed-case "Nothing To Commit" driver error is the
no-op result, a "boom" driver error is a `DoltCommitError`. -/
theorem dolt_commit_nothing_to_commit_classification_witness :
    (dolt_commit "m" "Django <django@localhost>" false
      (.error "Nothing To Commit: empty")).1 = .ok none
    ∧ (dolt_commit "m" "Django <django@localhost>" false (.error "boom")).1 =
        .error (.doltCommitError "Failed to commit: boom") :=
  ⟨(dolt_commit_nothing_to_commit_classification
      "m" "Django <django@localhost>" false "Nothing To Commit: empty").1 (by decide),
   (dolt_commit_nothing_to_commit_classification
      "m" "Django <django@localhost>" false "boom").2 (by decide)⟩

/-- C2: for every engine state, `dolt_status` with filtering returns a
sublist of the unfiltered rows, none of whose table names `LIKE`-matches any
pattern returned by `get_ignored_tables`; the filtering is the single
anti-join statement evaluated at query time. -/
theorem dolt_status_exclude_ignored_filtering (db : EngineState) :
    (dolt_status true (.ok db)).1 = .ok (statusQuery db true)
    ∧ List.Sublist (statusQuery db true) (statusQuery db false)
    ∧ (∀ r, r ∈ statusQuery db true → ∀ p, p ∈ ignoredQuery db →
        likeMatch p r.table_name = false)
    ∧ (dolt_status true (.ok db)).2 = [statusStmt true] := by
  refine ⟨rfl, ?_, ?_, rfl⟩
  · simp only [statusQuery, if_true]
    exact List.filter_sublist _
  · intro r hr p hp
    simp only [statusQuery, if_true, List.mem_filter] at hr
    obtain ⟨hmem, hpred⟩ := hr
    simp only [ignoredQuery, List.mem_map, List.mem_filter] at hp
    obtain ⟨i, ⟨hin, hig⟩, rfl⟩ := hp
    rw [Bool.not_eq_true'] at hpred
    have hall := List.any_eq_false.mp hpred i hin
    simp only [hig, Bool.true_and] at hall
    exact Bool.not_eq_true _ |>.mp hall

/-- Witness for C2 on `dbIgnoreDemo`: the `users` row survives the filter,
`tmp%` is an active ignore pattern, and `users` does not match it. -/
theorem dolt_status_exclude_ignored_filtering_witness :
    likeMatch "tmp%" (StatusRow.table_name ⟨"users", 0, "modified"⟩) = false :=
  (dolt_status_exclude_ignored_filtering dbIgnoreDemo).2.2.1
    ⟨"users", 0, "modified"⟩ (by decide) "tmp%" (by decide)

/-- C3: `dolt_pull` reports "Pulled with N conflicts" whenever the second
column of the engine's result row is present and nonzero, regardless of the
fast-forward flag; with a zero conflict count it reports fast-forward success
when the first column is nonzero and "Already up to date" otherwise; in
particular row `(1, 0)` gives the fast-forward message and `(0, 3)` gives
the 3-conflicts message. -/
theorem dolt_pull_conflict_precedence
    (remote b : String) (br : Except String (Option (List String)))
    (ff c : Int) (rest : List Int) :
    (c ≠ 0 →
      (dolt_pull remote (some b) br (.ok (some (ff, c :: rest)))).1 =
        .ok s!"Pulled with {c} conflicts")
    ∧ (ff ≠ 0 →
      (dolt_pull remote (some b) br (.ok (some (ff, 0 :: rest)))).1 =
        .ok "Fast-forward pull successful")
    ∧ (dolt_pull remote (some b) br (.ok (some (0, 0 :: rest)))).1 =
        .ok "Already up to date"
    ∧ (dolt_pull remote (some b) br (.ok (some (1, [0])))).1 =
        .ok "Fast-forward pull successful"
    ∧ (dolt_pull remote (some b) br (.ok (some (0, [3])))).1 =
        .ok "Pulled with 3 conflicts" := by
  refine ⟨?_, ?_, rfl, rfl, rfl⟩
  · intro h
    simp [dolt_pull, doltPullBody, interpretPullRow, h]
  · intro h
    simp [dolt_pull, doltPullBody, interpretPullRow, h]

/-- Witness for C3: a `(1, 2)` row reports 2 conflicts despite the
fast-forward flag, a `(5, 0)` row reports fast-forward success. -/
theorem dolt_pull_conflict_precedence_witness :
    (dolt_pull "origin" (some "main") (.ok none) (.ok (some (1, [2])))).1 =
      .ok "Pulled with 2 conflicts"
    ∧ (dolt_pull "origin" (some "main") (.ok none) (.ok (some (5, [0])))).1 =
      .ok "Fast-forward pull successful" :=
  ⟨(dolt_pull_conflict_precedence "origin" "main" (.ok none) 1 2 []).1 (by decide),
   (dolt_pull_conflict_precedence "origin" "main" (.ok none) 5 2 []).2.1 (by decide)⟩

/-- C4: `dolt_push` issues exactly one statement, whose argument list is the
optional `--user` pair, then the optional `--force`, then remote and branch;
at `remote = "origin"`, `branch = "main"`, `force = true` the list contains
`"--force"`, `"origin"`, `"main"` in that relative order for any resolved
user; on success the call returns the human-readable success message. -/
theorem dolt_push_argument_order
    (remote branch : String) (force : Bool) (user : Option String)
    (envUser : String) (resp : Except String Unit) :
    (dolt_push remote branch force user envUser resp).2 =
      [pushStmt remote branch force (user.getD envUser)]
    ∧ pushArgs remote branch force (user.getD envUser) =
        (if user.getD envUser != "" then ["--user", user.getD envUser] else [])
          ++ (if force then ["--force"] else []) ++ [remote, branch]
    ∧ List.Sublist ["--force", "origin", "main"]
        (pushArgs "origin" "main" true (user.getD envUser))
    ∧ (dolt_push remote branch force user envUser (.ok ())).1 =
        .ok s!"Pushed {branch} to {remote}" := by
  refine ⟨rfl, ?_, ?_, rfl⟩
  · cases h : (user.getD envUser != "") <;> cases force <;> simp [pushArgs, h]
  · cases h : (user.getD envUser != "") <;> simp [pushArgs, h]

/-- C5 counterexample: a driver exception raised inside `dolt_status` (an
operation of the façade) escapes as the raw driver error — the source has no
`try` around its statement — instead of a typed error of the taxonomy. -/
theorem dolt_status_uncaught_driver_error :
    (dolt_status true (.error "connection lost")).1 =
      .error (.driverError "connection lost") := by decide

/-- C5 amended: the mutating operations (stage, commit, add-remote, push,
pull on its own statement, fetch) wrap their driver exceptions into the
corresponding typed errors with context attached, but the read-only
operations (status, log, diff, branch list, current branch, ignored tables,
remotes) let driver exceptions propagate unwrapped. -/
theorem facade_error_wrapping_amended
    (e table name url remote branch message author : String)
    (allowEmpty force : Bool) (user : Option String) (envUser : String)
    (limit : Nat) (fromRef toRef : String) (tbl : Option String) (b : String)
    (excl : Bool) :
    (dolt_add table (.error e)).1 =
      .error (.doltError s!"Failed to stage \x27{table}\x27: {e}")
    ∧ (dolt_commit message author allowEmpty (.error e)).1 =
        (if hasSubstr (strToLower e) "nothing to commit" then .ok none
         else .error (.doltCommitError s!"Failed to commit: {e}"))
    ∧ (dolt_add_remote name url (.error e)).1 =
        .error (.doltError s!"Failed to add remote \x27{name}\x27: {e}")
    ∧ (dolt_push remote branch force user envUser (.error e)).1 =
        (if hasSubstr e "DOLT_REMOTE_PASSWORD" then
          .error (.doltPushError (s!"Push failed: {e}" ++ "\n" ++
            "Note: DOLT_PUSH requires the DOLT_REMOTE_PASSWORD environment " ++
            "variable to be set at the Dolt server level."))
         else .error (.doltPushError s!"Push failed: {e}"))
    ∧ (dolt_pull remote (some b) (.ok none) (.error e)).1 =
        .error (.doltPullError s!"Pull failed: {e}")
    ∧ (dolt_fetch remote (.error e)).1 = .error (.doltError s!"Fetch failed: {e}")
    ∧ (dolt_status excl (.error e)).1 = .error (.driverError e)
    ∧ (dolt_log limit (.error e)).1 = .error (.driverError e)
    ∧ (dolt_diff fromRef toRef tbl (.error e)).1 = .error (.driverError e)
    ∧ (dolt_branch_list (.error e)).1 = .error (.driverError e)
    ∧ (dolt_current_branch (.error e)).1 = .error (.driverError e)
    ∧ (get_ignored_tables (.error e)).1 = .error (.driverError e)
    ∧ (dolt_remotes (.error e)).1 = .error (.driverError e) :=
  ⟨rfl, rfl, rfl, rfl, rfl, rfl, rfl, rfl, rfl, rfl, rfl, rfl, rfl⟩

/-- C6 counterexample: with the branch argument omitted, a driver exception
raised while resolving the current branch — that call happens before the
`try` of `dolt_pull` — escapes as the raw driver error, not as
`DoltPullError`. -/
theorem dolt_pull_branch_resolution_uncaught :
    (dolt_pull "origin" none (.error "connection lost") (.ok none)).1 =
      .error (.driverError "connection lost") := by decide

/-- C6 amended: a driver exception raised by the pull statement itself always
becomes `DoltPullError`, also when the branch was resolved by the extra
round-trip; but a driver exception raised during that current-branch
round-trip propagates unwrapped. -/
theorem dolt_pull_error_wrapping_amended (remote b e : String)
    (br : Except String (Option (List String)))
    (pullResp : Except String (Option (Int × List Int))) :
    (dolt_pull remote (some b) br (.error e)).1 =
      .error (.doltPullError s!"Pull failed: {e}")
    ∧ (dolt_pull remote none (.ok (some [b])) (.error e)).1 =
      .error (.doltPullError s!"Pull failed: {e}")
    ∧ (dolt_pull remote none (.ok none) (.error e)).1 =
      .error (.doltPullError s!"Pull failed: {e}")
    ∧ (dolt_pull remote none (.error e) pullResp).1 = .error (.driverError e) :=
  ⟨rfl, rfl, rfl, rfl⟩

/-- C7: `dolt_add_and_commit` stages first and commits second; when staging
fails its typed error is returned with only the stage statement issued — the
commit statement is never built or issued and the outcome does not depend on
the commit driver at all; on a successful stage the trace is the stage
statement followed by the commit statement and the result is the commit
result. -/
theorem dolt_add_and_commit_sequencing (message table author e : String)
    (commitResp : Except String (Option (List String))) :
    dolt_add_and_commit message table author (.error e) commitResp =
      (.error (.doltError s!"Failed to stage \x27{table}\x27: {e}"), [addStmt table])
    ∧ (dolt_add_and_commit message table author (.ok ()) commitResp).2 =
        [addStmt table, commitStmt message author false]
    ∧ (dolt_add_and_commit message table author (.ok ()) commitResp).1 =
        (dolt_commit message author false commitResp).1 :=
  ⟨rfl, rfl, rfl⟩

/-- C8: for every engine state whose log view is ordered newest-first,
`dolt_log` with limit `N` returns at most `N` rows, still ordered
newest-first, and they are an initial segment of the engine's ordering. -/
theorem dolt_log_limit_order (db : EngineState) (limit : Nat)
    (h : List.Pairwise (fun a b => b.date ≤ a.date) db.commits) :
    (dolt_log limit (.ok db)).1 = .ok (logQuery db limit)
    ∧ (logQuery db limit).length ≤ limit
    ∧ List.Pairwise (fun a b => b.date ≤ a.date) (logQuery db limit)
    ∧ logQuery db limit ++ db.commits.drop limit = db.commits := by
  refine ⟨rfl, ?_, ?_, ?_⟩
  · exact List.length_take_le limit db.commits
  · exact List.Pairwise.sublist (List.take_sublist limit db.commits) h
  · exact List.take_append_drop limit db.commits

/-- Witness for C8 on `dbLogDemo` at limit 1. -/
theorem dolt_log_limit_order_witness : (logQuery dbLogDemo 1).length ≤ 1 :=
  (dolt_log_limit_order dbLogDemo 1 (by decide)).2.1

/-- C9 counterexample: two diff invocations that differ only in the named
table issue statements with different texts — the table-filtered diff
interpolates its arguments into the statement instead of binding them (its
parameter list is empty). -/
theorem dolt_diff_interpolated_text :
    ((diffStmt "HEAD" "WORKING" (some "users")).text ==
      (diffStmt "HEAD" "WORKING" (some "orders")).text) = false
    ∧ (diffStmt "HEAD" "WORKING" (some "users")).params = [] := by
  constructor <;> decide

/-- C9 amended: every operation except the table-filtered diff issues a
statement whose text is independent of the string argument values, which
travel only in the bound parameter list (the push text varies only with the
number of arguments, fixed once the force flag and resolved user are fixed);
the table-filtered diff instead interpolates the refs and table into the
text, so different tables yield different texts. -/
theorem statement_text_independence_amended
    (t1a t2a m1 a1 m2 a2 : String) (ae : Bool) (l1 l2 : Nat)
    (f1 g1 f2 g2 : String) (r1 b1 r2 b2 : String) (force : Bool) (u : String)
    (n1 u1 n2 u2 : String) (rm1 rm2 : String) (e1 : Bool) :
    (addStmt t1a).text = (addStmt t2a).text
    ∧ (commitStmt m1 a1 ae).text = (commitStmt m2 a2 ae).text
    ∧ (statusStmt e1).params = []
    ∧ (logStmt l1).text = (logStmt l2).text
    ∧ (diffStmt f1 g1 none).text = (diffStmt f2 g2 none).text
    ∧ (remoteAddStmt n1 u1).text = (remoteAddStmt n2 u2).text
    ∧ (pushStmt r1 b1 force u).text = (pushStmt r2 b2 force u).text
    ∧ (pullStmt r1 b1).text = (pullStmt r2 b2).text
    ∧ (fetchStmt rm1).text = (fetchStmt rm2).text
    ∧ (addStmt t1a).params = [t1a]
    ∧ (pullStmt r1 b1).params = [r1, b1]
    ∧ ((diffStmt "HEAD" "WORKING" (some "a")).text ==
        (diffStmt "HEAD" "WORKING" (some "b")).text) = false := by
  refine ⟨rfl, ?_, ?_, rfl, rfl, rfl, ?_, rfl, rfl, rfl, rfl, by decide⟩
  · cases ae <;> rfl
  · cases e1 <;> rfl
  · cases force <;> cases h : (u != "") <;> simp [pushStmt, pushArgs, h]

/-- C10: when the commit call succeeds but fetches no row (or an empty row),
`dolt_commit` returns the no-op result `none` — also with
`allow_empty = true`, where the return value is then indistinguishable from
the "nothing to commit" outcome. -/
theorem dolt_commit_empty_result_noop (message author : String) (allowEmpty : Bool) :
    (dolt_commit message author allowEmpty (.ok none)).1 = .ok none
    ∧ (dolt_commit message author allowEmpty (.ok (some []))).1 = .ok none
    ∧ (dolt_commit message author true (.ok none)).1 = .ok none
    ∧ (dolt_commit message author true (.ok none)).1 =
        (dolt_commit message author true (.error "nothing to commit")).1 :=
  ⟨rfl, rfl, rfl, rfl⟩
